import Mathlib

/-!
Shallow embedding of the `azure_monitor_logs_dce` sink slice of the
`yaxitech/vector` repository: the retry classifier, the delivery service,
the bearer-token store and its background refresher, and the endpoint
builder.  Stateful Rust code is modelled by explicit state passing, async
I/O outcomes (token fetches, HTTP transport calls) are passed in as
`Except`-valued arguments or functions, and machine integers are `Nat`.
-/

/-- Byte payloads (`bytes::Bytes`), modelled as lists of byte values. -/
abbrev Bytes := List Nat

/-! Model of the status codes of the `http` crate, as their numeric value. -/

namespace StatusCode

/-- `StatusCode::is_success`: 200–299. -/
def is_success (c : Nat) : Bool := decide (200 ≤ c ∧ c ≤ 299)

/-- `StatusCode::is_server_error`: 500–599. -/
def is_server_error (c : Nat) : Bool := decide (500 ≤ c ∧ c ≤ 599)

/-- `StatusCode::canonical_reason` of the `http` crate: the standard reason
phrase for the codes the crate knows, `none` otherwise. -/
def canonical_reason (c : Nat) : Option String :=
  match c with
  | 100 => some "Continue"
  | 101 => some "Switching Protocols"
  | 102 => some "Processing"
  | 200 => some "OK"
  | 201 => some "Created"
  | 202 => some "Accepted"
  | 203 => some "Non Authoritative Information"
  | 204 => some "No Content"
  | 205 => some "Reset Content"
  | 206 => some "Partial Content"
  | 207 => some "Multi-Status"
  | 208 => some "Already Reported"
  | 226 => some "IM Used"
  | 300 => some "Multiple Choices"
  | 301 => some "Moved Permanently"
  | 302 => some "Found"
  | 303 => some "See Other"
  | 304 => some "Not Modified"
  | 305 => some "Use Proxy"
  | 307 => some "Temporary Redirect"
  | 308 => some "Permanent Redirect"
  | 400 => some "Bad Request"
  | 401 => some "Unauthorized"
  | 402 => some "Payment Required"
  | 403 => some "Forbidden"
  | 404 => some "Not Found"
  | 405 => some "Method Not Allowed"
  | 406 => some "Not Acceptable"
  | 407 => some "Proxy Authentication Required"
  | 408 => some "Request Timeout"
  | 409 => some "Conflict"
  | 410 => some "Gone"
  | 411 => some "Length Required"
  | 412 => some "Precondition Failed"
  | 413 => some "Payload Too Large"
  | 414 => some "URI Too Long"
  | 415 => some "Unsupported Media Type"
  | 416 => some "Range Not Satisfiable"
  | 417 => some "Expectation Failed"
  | 418 => some "I\x27m a teapot"
  | 421 => some "Misdirected Request"
  | 422 => some "Unprocessable Entity"
  | 423 => some "Locked"
  | 424 => some "Failed Dependency"
  | 426 => some "Upgrade Required"
  | 428 => some "Precondition Required"
  | 429 => some "Too Many Requests"
  | 431 => some "Request Header Fields Too Large"
  | 451 => some "Unavailable For Legal Reasons"
  | 500 => some "Internal Server Error"
  | 501 => some "Not Implemented"
  | 502 => some "Bad Gateway"
  | 503 => some "Service Unavailable"
  | 504 => some "Gateway Timeout"
  | 505 => some "HTTP Version Not Supported"
  | 506 => some "Variant Also Negotiates"
  | 507 => some "Insufficient Storage"
  | 508 => some "Loop Detected"
  | 510 => some "Not Extended"
  | 511 => some "Network Authentication Required"
  | _ => none

/-- The `Display` rendering of a status code in the `http` crate:
`"<u16> <canonical reason>"`, with a fixed fallback reason. -/
def display (c : Nat) : String :=
  toString c ++ " " ++ (canonical_reason c).getD "<unknown status code>"

end StatusCode

/-- `GroupedCountByteSize` from `vector_common`: opaque event byte-size
accounting carried through unchanged by this slice. -/
structure GroupedCountByteSize where
  byte_size : Nat
deriving DecidableEq, Repr

/-- `RequestMetadata` from `vector_common`, restricted to the two accessors
this slice uses: `request_encoded_size()` and
`into_events_estimated_json_encoded_byte_size()`. -/
structure RequestMetadata where
  request_encoded_size : Nat
  events_estimated_json_encoded_byte_size : GroupedCountByteSize
deriving DecidableEq, Repr

/-- `RequestMetadata::into_events_estimated_json_encoded_byte_size`:
consumes the metadata and yields its event byte-size accounting. -/
def RequestMetadata.into_events_estimated_json_encoded_byte_size
    (m : RequestMetadata) : GroupedCountByteSize :=
  m.events_estimated_json_encoded_byte_size

/-- An `http::Response<Body>` as this slice observes it: its status code
(and an opaque body). -/
structure HttpResponse where
  status : Nat
  body : Bytes
deriving DecidableEq, Repr

/-- `AzureMonitorLogsDceResponse` (service.rs): the 2xx delivery result. -/
structure AzureMonitorLogsDceResponse where
  inner : HttpResponse
  events_byte_size : GroupedCountByteSize
  raw_byte_size : Nat
deriving DecidableEq, Repr

/-- `hyper::Error`, the transport-level error type of the retry logic;
its content is opaque to the classifier. -/
structure HyperError where
  message : String
deriving DecidableEq, Repr

/-- `RetryAction` from `sinks::util::retries`. -/
inductive RetryAction where
  | Successful : RetryAction
  | Retry (reason : String) : RetryAction
  | DontRetry (reason : String) : RetryAction
deriving DecidableEq, Repr

/-- `AzureMonitorLogsDceRetryLogic::is_retriable_error`: every transport
error is retriable. -/
def AzureMonitorLogsDceRetryLogic.is_retriable_error (_error : HyperError) : Bool :=
  true

/-- `AzureMonitorLogsDceRetryLogic::should_retry_response` (sink.rs):
match on the response status, arms in source order (429, 501, other 5xx,
2xx, default). -/
def AzureMonitorLogsDceRetryLogic.should_retry_response
    (response : AzureMonitorLogsDceResponse) : RetryAction :=
  if response.inner.status = 429 then
    RetryAction.Retry "too many requests"
  else if response.inner.status = 501 then
    RetryAction.DontRetry "endpoint not implemented"
  else if StatusCode.is_server_error response.inner.status then
    RetryAction.Retry (StatusCode.display response.inner.status)
  else if StatusCode.is_success response.inner.status then
    RetryAction.Successful
  else
    RetryAction.DontRetry ("response status: " ++ StatusCode.display response.inner.status)

/-- Claim C1: for every HTTP status code from 100 to 599 the retry
classifier returns exactly one `RetryAction` (it is a total function), and
the mapping matches the table: every transport error is retriable; 429 is
`Retry "too many requests"`; 501 is `DontRetry "endpoint not implemented"`;
any other 5xx is `Retry` with the status text; any 2xx is `Successful`; and
every other non-2xx status is `DontRetry ("response status: " ++ status
text)`, where the status text is the `Display` rendering of the code. -/
theorem retry_classifier_matches_table (r : AzureMonitorLogsDceResponse)
    (h1 : 100 ≤ r.inner.status) (h2 : r.inner.status ≤ 599) :
    (∀ e : HyperError, AzureMonitorLogsDceRetryLogic.is_retriable_error e = true)
    ∧ (r.inner.status = 429 →
        AzureMonitorLogsDceRetryLogic.should_retry_response r
          = RetryAction.Retry "too many requests")
    ∧ (r.inner.status = 501 →
        AzureMonitorLogsDceRetryLogic.should_retry_response r
          = RetryAction.DontRetry "endpoint not implemented")
    ∧ (500 ≤ r.inner.status → r.inner.status ≠ 501 →
        AzureMonitorLogsDceRetryLogic.should_retry_response r
          = RetryAction.Retry (StatusCode.display r.inner.status))
    ∧ (200 ≤ r.inner.status → r.inner.status ≤ 299 →
        AzureMonitorLogsDceRetryLogic.should_retry_response r
          = RetryAction.Successful)
    ∧ (¬ (200 ≤ r.inner.status ∧ r.inner.status ≤ 299) → r.inner.status < 500 →
        r.inner.status ≠ 429 →
        AzureMonitorLogsDceRetryLogic.should_retry_response r
          = RetryAction.DontRetry
              ("response status: " ++ StatusCode.display r.inner.status)) := by
  unfold AzureMonitorLogsDceRetryLogic.should_retry_response
  refine ⟨fun _ => rfl, ?_, ?_, ?_, ?_, ?_⟩
  · intro h
    simp [h]
  · intro h
    simp [h]
  · intro h5 hne
    have h429 : r.inner.status ≠ 429 := by omega
    have hsrv : StatusCode.is_server_error r.inner.status = true := by
      simp [StatusCode.is_server_error]
      omega
    simp [h429, hne, hsrv]
  · intro ha hb
    have h429 : r.inner.status ≠ 429 := by omega
    have h501 : r.inner.status ≠ 501 := by omega
    have hsrv : StatusCode.is_server_error r.inner.status = false := by
      simp [StatusCode.is_server_error]
      omega
    have hsucc : StatusCode.is_success r.inner.status = true := by
      simp [StatusCode.is_success]
      omega
    simp [h429, h501, hsrv, hsucc]
  · intro hno h5 h429
    have h501 : r.inner.status ≠ 501 := by omega
    have hsrv : StatusCode.is_server_error r.inner.status = false := by
      simp [StatusCode.is_server_error]
      omega
    have hsucc : StatusCode.is_success r.inner.status = false := by
      simp [StatusCode.is_success]
      omega
    simp [h429, h501, hsrv, hsucc]

/-- Witness for C1: a concrete 503 response is classified `Retry` with the
status text. -/
theorem retry_classifier_matches_table_witness :
    AzureMonitorLogsDceRetryLogic.should_retry_response
      { inner := { status := 503, body := [] },
        events_byte_size := { byte_size := 0 }, raw_byte_size := 0 }
      = RetryAction.Retry (StatusCode.display 503) :=
  (retry_classifier_matches_table
      { inner := { status := 503, body := [] },
        events_byte_size := { byte_size := 0 }, raw_byte_size := 0 }
      (by decide) (by decide)).2.2.2.1 (by decide) (by decide)

/-- `azure_core::auth::AccessToken` as this slice uses it: the opaque
bearer secret. -/
structure AccessToken where
  secret : String
deriving DecidableEq, Repr

/-- The explicit client-secret credential triple (sink.rs,
`AzureClientSecretCredentials`). -/
structure AzureClientSecretCredentials where
  tenant_id : String
  client_id : String
  client_secret : String
deriving DecidableEq, Repr

/-- The credential chosen at construction (auth.rs,
`AzureAuthenticator::new`): an explicit `ClientSecretCredential` when the
config carries the triple, otherwise the ambient
`DefaultAzureCredential`. -/
inductive TokenCredential where
  | clientSecret (creds : AzureClientSecretCredentials) : TokenCredential
  | defaultAzure : TokenCredential
deriving DecidableEq, Repr

/-- An error from the identity provider (`crate::Error` as produced by
`fetch_token`). -/
structure AuthError where
  message : String
deriving DecidableEq, Repr

namespace Auth

/-- `Inner` (auth.rs): the shared authenticator state — the fixed
credential and the current token.  The `RwLock` around the token is
modelled by explicit state passing; each lock-guarded critical section is
one pure state transition.  (Namespaced because Mathlib already declares
a root-level `Inner`.) -/
structure Inner where
  credential : TokenCredential
  token : AccessToken
deriving DecidableEq, Repr

/-- `Inner::get_token`: read-lock the token and copy its secret out. -/
def Inner.get_token (s : Inner) : String :=
  s.token.secret

/-- `Inner::regenerate_token`: await `fetch_token` (its outcome is the
`fetchResult` argument); on success write-lock and replace the stored
token, on failure propagate the error and leave the state unchanged.
Returns the Rust `Result` paired with the post-state. -/
def Inner.regenerate_token (s : Inner) (fetchResult : Except AuthError AccessToken) :
    Except AuthError Unit × Inner :=
  match fetchResult with
  | Except.ok token => (Except.ok (), { s with token := token })
  | Except.error e => (Except.error e, s)

end Auth

/-- A log record emitted by the refresher loop. -/
structure LogRecord where
  level : String
  message : String
deriving DecidableEq, Repr

/-- `AzureAuthenticator::token_regenerator`, one loop iteration after the
interval tick fires: log the debug line, call `Inner::regenerate_token`;
on `Ok` publish one refresh-completed signal on the watch channel
(`send_replace`), on `Err` log the error and publish nothing.  Returns the
post-state, the number of signals published this tick, and the log records
emitted, in order. -/
def token_regenerator_tick (s : Auth.Inner) (fetchResult : Except AuthError AccessToken) :
    Auth.Inner × Nat × List LogRecord :=
  match Auth.Inner.regenerate_token s fetchResult with
  | (Except.ok _, s2) =>
      (s2, 1, [{ level := "debug", message := "Renewing Azure authentication token." }])
  | (Except.error e, s2) =>
      (s2, 0,
        [{ level := "debug", message := "Renewing Azure authentication token." },
         { level := "error",
           message := "Failed to update Azure authentication token. " ++ e.message }])

/-- The refresher period (auth.rs, `token_regenerator`):
`Duration::from_secs(60 * 60)`, in seconds. -/
def token_regenerator_period : Nat := 60 * 60

/-- The tick schedule of `tokio::time::interval_at(now + period, period)`
started at `start`: the n-th tick fires at `start + (n + 1) * period`
(first tick one full period after start). -/
def regenerator_tick_time (start n : Nat) : Nat :=
  start + (n + 1) * token_regenerator_period

/-- Claim C4: if the fetch fails during a scheduled refresh tick, the token
store is left unchanged (`get_token` returns the same previous secret), the
error is only logged (the tick emits an error log record carrying it), and
no error channel exists toward service callers: the tick yields a
post-state and logs, never an `Except` error, and publishes no signal. -/
theorem refresh_failure_keeps_token (s : Auth.Inner) (e : AuthError) :
    (token_regenerator_tick s (Except.error e)).1 = s
    ∧ Auth.Inner.get_token (token_regenerator_tick s (Except.error e)).1 = Auth.Inner.get_token s
    ∧ (token_regenerator_tick s (Except.error e)).2.1 = 0
    ∧ { level := "error",
        message := "Failed to update Azure authentication token. " ++ e.message }
        ∈ (token_regenerator_tick s (Except.error e)).2.2 := by
  refine ⟨rfl, rfl, rfl, ?_⟩
  simp [token_regenerator_tick, Auth.Inner.regenerate_token]

/-- Claim C7: a successful refresh that replaces the stored token with `t`
makes every subsequent `get_token` return exactly the secret of `t`. -/
theorem replace_then_get_roundtrip (s : Auth.Inner) (t : AccessToken) :
    Auth.Inner.get_token (Auth.Inner.regenerate_token s (Except.ok t)).2 = t.secret := by
  rfl

/-- Claim C8: the refresher timer period is one hour (3600 seconds); its
first tick fires one full period after start, strictly after start (no
refresh immediately after the initial fetch); each successful tick replaces
the stored token and publishes exactly one refresh-completed signal, and no
tick ever publishes more than one signal. -/
theorem regenerator_schedule_and_success_tick :
    token_regenerator_period = 3600
    ∧ (∀ start : Nat, regenerator_tick_time start 0 = start + token_regenerator_period)
    ∧ (∀ start : Nat, start < regenerator_tick_time start 0)
    ∧ (∀ (s : Auth.Inner) (t : AccessToken),
        (token_regenerator_tick s (Except.ok t)).1.token = t
        ∧ (token_regenerator_tick s (Except.ok t)).2.1 = 1)
    ∧ (∀ (s : Auth.Inner) (r : Except AuthError AccessToken),
        (token_regenerator_tick s r).2.1 ≤ 1) := by
  refine ⟨rfl, fun start => ?_, fun start => ?_, fun s t => ⟨rfl, rfl⟩, fun s r => ?_⟩
  · simp [regenerator_tick_time]
  · simp [regenerator_tick_time, token_regenerator_period]
  · cases r <;> simp [token_regenerator_tick, Auth.Inner.regenerate_token]

/-- An `http::Request` under construction: method, URI, header map and
body.  The header map is modelled as an association list in insertion
order; `HeaderMap::insert` replaces the value of an existing name. -/
structure HttpRequest where
  method : String
  uri : String
  headers : List (String × String)
  body : Bytes
deriving DecidableEq, Repr

/-- `HeaderMap::insert`: replace the value stored under `name` if present,
otherwise append the entry. -/
def header_insert (headers : List (String × String)) (name value : String) :
    List (String × String) :=
  if headers.any (fun h => h.1 == name) then
    headers.map (fun h => if h.1 == name then (name, value) else h)
  else
    headers ++ [(name, value)]

/-- `crate::http::HttpError`: the transport-level failure of a delivery
call, opaque to this slice. -/
structure HttpError where
  message : String
deriving DecidableEq, Repr

/-- `AzureAuthenticator` (auth.rs): a shared handle (`Arc`) on the inner
state. -/
structure AzureAuthenticator where
  inner : Auth.Inner
deriving DecidableEq, Repr

/-- `AzureAuthenticator::new`: choose the credential (explicit
client-secret triple when configured, ambient default otherwise), then
await the initial `fetch_token` (its outcome is the `fetchResult`
argument); on success wrap the credential and token, on failure return the
error. -/
def AzureAuthenticator.new (client_credentials : Option AzureClientSecretCredentials)
    (fetchResult : Except AuthError AccessToken) :
    Except AuthError AzureAuthenticator :=
  let credential : TokenCredential :=
    match client_credentials with
    | some creds => TokenCredential.clientSecret creds
    | none => TokenCredential.defaultAzure
  match fetchResult with
  | Except.ok token =>
      Except.ok { inner := { credential := credential, token := token } }
  | Except.error e => Except.error e

/-- `AzureAuthenticator::apply`: read the current token out of the store
and insert the `authorization: Bearer <secret>` header. -/
def AzureAuthenticator.apply (a : AzureAuthenticator) (request : HttpRequest) :
    HttpRequest :=
  { request with
      headers :=
        header_insert request.headers "authorization"
          ("Bearer " ++ Auth.Inner.get_token a.inner) }

/-- `EventFinalizers`: the opaque acknowledgement-tracking token carried by
a delivery request. -/
structure EventFinalizers where
  finalizer_count : Nat
deriving DecidableEq, Repr

/-- `AzureMonitorLogsDceRequest` (service.rs). -/
structure AzureMonitorLogsDceRequest where
  body : Bytes
  finalizers : EventFinalizers
  metadata : RequestMetadata
deriving DecidableEq, Repr

/-- `AzureMonitorLogsDceResponseError` (service.rs): `ServerError` carries
the non-2xx status code, `HttpError` wraps the transport failure. -/
inductive AzureMonitorLogsDceResponseError where
  | ServerError (code : Nat) : AzureMonitorLogsDceResponseError
  | HttpError (error : HttpError) : AzureMonitorLogsDceResponseError
deriving DecidableEq, Repr

/-- `AzureMonitorLogsDceService` (service.rs): the fixed endpoint URI and
the shared authenticator.  The HTTP client is modelled by the transport
function passed to `call`. -/
structure AzureMonitorLogsDceService where
  uri : String
  creds : AzureAuthenticator
deriving DecidableEq, Repr

/-- The request-building part of `AzureMonitorLogsDceService::call`:
`Request::post(uri)` (no pre-existing headers), insert `content-type` and
`content-length`, set the body to the request body unmodified, then
`creds.apply` adds the `authorization` header. -/
def AzureMonitorLogsDceService.build_http_request
    (svc : AzureMonitorLogsDceService) (request : AzureMonitorLogsDceRequest) :
    HttpRequest :=
  let builder : HttpRequest := { method := "POST", uri := svc.uri, headers := [], body := [] }
  let headers := header_insert builder.headers "content-type" "application/json"
  let headers := header_insert headers "content-length" (toString request.body.length)
  let http_request : HttpRequest := { builder with headers := headers, body := request.body }
  svc.creds.apply http_request

/-- `AzureMonitorLogsDceService::call`: build the HTTP request, send it
(the async `client.call` outcome for a built request is given by the
`transport` function), and map the outcome: transport failure to
`HttpError`, non-2xx status to `ServerError`, 2xx to a response carrying
the raw encoded size and the event byte-size accounting from the request
metadata. -/
def AzureMonitorLogsDceService.call (svc : AzureMonitorLogsDceService)
    (transport : HttpRequest → Except HttpError HttpResponse)
    (request : AzureMonitorLogsDceRequest) :
    Except AzureMonitorLogsDceResponseError AzureMonitorLogsDceResponse :=
  let http_request := svc.build_http_request request
  match transport http_request with
  | Except.ok response =>
      if StatusCode.is_success response.status then
        Except.ok
          { inner := response,
            raw_byte_size := request.metadata.request_encoded_size,
            events_byte_size :=
              request.metadata.into_events_estimated_json_encoded_byte_size }
      else
        Except.error (AzureMonitorLogsDceResponseError.ServerError response.status)
  | Except.error error =>
      Except.error (AzureMonitorLogsDceResponseError.HttpError error)

/-- Claim C3: the HTTP request built by the delivery service is a POST to
the configured URI whose headers are exactly `content-type:
application/json`, `content-length: <byte length of the body>` and
`authorization: Bearer <secret currently held in the token store>`, and
whose body is the request body unmodified. -/
theorem built_request_headers (svc : AzureMonitorLogsDceService)
    (request : AzureMonitorLogsDceRequest) :
    svc.build_http_request request =
      { method := "POST",
        uri := svc.uri,
        headers :=
          [("content-type", "application/json"),
           ("content-length", toString request.body.length),
           ("authorization", "Bearer " ++ svc.creds.inner.token.secret)],
        body := request.body } := by
  rfl

/-- Claim C2: `call` returns an error exactly when the delivery does not
reach a 2xx outcome — a transport failure yields the transport-error
variant wrapping the cause, a non-2xx status yields `ServerError` with
that status, and a 2xx status yields `Ok` with the raw byte size taken
from the request metadata and the event byte-size accounting derived from
the same metadata. -/
theorem delivery_call_outcomes (svc : AzureMonitorLogsDceService)
    (transport : HttpRequest → Except HttpError HttpResponse)
    (request : AzureMonitorLogsDceRequest) :
    (∀ e : HttpError,
        transport (svc.build_http_request request) = Except.error e →
        svc.call transport request
          = Except.error (AzureMonitorLogsDceResponseError.HttpError e))
    ∧ (∀ response : HttpResponse,
        transport (svc.build_http_request request) = Except.ok response →
        StatusCode.is_success response.status = false →
        svc.call transport request
          = Except.error (AzureMonitorLogsDceResponseError.ServerError response.status))
    ∧ (∀ response : HttpResponse,
        transport (svc.build_http_request request) = Except.ok response →
        StatusCode.is_success response.status = true →
        svc.call transport request
          = Except.ok
              { inner := response,
                raw_byte_size := request.metadata.request_encoded_size,
                events_byte_size :=
                  request.metadata.into_events_estimated_json_encoded_byte_size })
    ∧ ((∃ r, svc.call transport request = Except.ok r)
        ↔ (∃ response, transport (svc.build_http_request request) = Except.ok response
            ∧ StatusCode.is_success response.status = true)) := by
  refine ⟨?_, ?_, ?_, ?_⟩
  · intro e h
    simp [AzureMonitorLogsDceService.call, h]
  · intro response h hs
    simp [AzureMonitorLogsDceService.call, h, hs]
  · intro response h hs
    simp [AzureMonitorLogsDceService.call, h, hs]
  · constructor
    · rintro ⟨r, hr⟩
      simp only [AzureMonitorLogsDceService.call] at hr
      cases htr : transport (svc.build_http_request request) with
      | ok response =>
          rw [htr] at hr
          by_cases hs : StatusCode.is_success response.status = true
          · exact ⟨response, rfl, hs⟩
          · simp [hs] at hr
      | error e =>
          rw [htr] at hr
          simp at hr
    · rintro ⟨response, htr, hs⟩
      refine ⟨{ inner := response,
                raw_byte_size := request.metadata.request_encoded_size,
                events_byte_size :=
                  request.metadata.into_events_estimated_json_encoded_byte_size }, ?_⟩
      simp [AzureMonitorLogsDceService.call, htr, hs]

/-- Witness for C2: with a transport that reports a 204 response, a
concrete call returns `Ok` carrying the sizes from the request metadata. -/
theorem delivery_call_outcomes_witness :
    AzureMonitorLogsDceService.call
      { uri := "https://h/u",
        creds := { inner := { credential := TokenCredential.defaultAzure,
                              token := { secret := "T1" } } } }
      (fun _ => Except.ok { status := 204, body := [] })
      { body := [1, 2], finalizers := { finalizer_count := 0 },
        metadata := { request_encoded_size := 7,
                      events_estimated_json_encoded_byte_size := { byte_size := 5 } } }
      = Except.ok
          { inner := { status := 204, body := [] },
            raw_byte_size := 7,
            events_byte_size := { byte_size := 5 } } :=
  (delivery_call_outcomes
      { uri := "https://h/u",
        creds := { inner := { credential := TokenCredential.defaultAzure,
                              token := { secret := "T1" } } } }
      (fun _ => Except.ok { status := 204, body := [] })
      { body := [1, 2], finalizers := { finalizer_count := 0 },
        metadata := { request_encoded_size := 7,
                      events_estimated_json_encoded_byte_size :=
                        { byte_size := 5 } } }).2.2.1
    { status := 204, body := [] } rfl (by decide)

/-- `EventStatus` from `vector_core`, restricted to the variants the
`DriverResponse` impl in service.rs can produce. -/
inductive EventStatus where
  | Delivered : EventStatus
  | Errored : EventStatus
  | Rejected : EventStatus
deriving DecidableEq, Repr

/-- `DriverResponse::event_status` for `AzureMonitorLogsDceResponse`
(service.rs): 2xx is `Delivered`, 5xx is `Errored`, anything else is
`Rejected`. -/
def AzureMonitorLogsDceResponse.event_status (r : AzureMonitorLogsDceResponse) :
    EventStatus :=
  if StatusCode.is_success r.inner.status then EventStatus.Delivered
  else if StatusCode.is_server_error r.inner.status then EventStatus.Errored
  else EventStatus.Rejected

/-- `DriverResponse::events_sent` for `AzureMonitorLogsDceResponse`. -/
def AzureMonitorLogsDceResponse.events_sent (r : AzureMonitorLogsDceResponse) :
    GroupedCountByteSize :=
  r.events_byte_size

/-- `DriverResponse::bytes_sent` for `AzureMonitorLogsDceResponse`. -/
def AzureMonitorLogsDceResponse.bytes_sent (r : AzureMonitorLogsDceResponse) :
    Option Nat :=
  some r.raw_byte_size

/-- Claim C9: every response produced by `call` wraps an HTTP response with
a 2xx status, so its `event_status` is `Delivered` (the `Errored` and
`Rejected` branches are unreachable for such responses) and `bytes_sent`
returns `some raw_byte_size`. -/
theorem call_response_is_delivered (svc : AzureMonitorLogsDceService)
    (transport : HttpRequest → Except HttpError HttpResponse)
    (request : AzureMonitorLogsDceRequest) (resp : AzureMonitorLogsDceResponse)
    (h : svc.call transport request = Except.ok resp) :
    StatusCode.is_success resp.inner.status = true
    ∧ resp.event_status = EventStatus.Delivered
    ∧ resp.bytes_sent = some resp.raw_byte_size := by
  simp only [AzureMonitorLogsDceService.call] at h
  cases htr : transport (svc.build_http_request request) with
  | ok response =>
      rw [htr] at h
      by_cases hs : StatusCode.is_success response.status = true
      · simp only [hs, if_true] at h
        injection h with h
        subst h
        exact ⟨hs, by simp [AzureMonitorLogsDceResponse.event_status, hs],
          rfl⟩
      · simp [hs] at h
  | error e =>
      rw [htr] at h
      simp at h

/-- Witness for C9: a concrete call through a transport that reports a
200 response yields a response whose status is `Delivered`. -/
theorem call_response_is_delivered_witness :
    StatusCode.is_success (200 : Nat) = true
    ∧ AzureMonitorLogsDceResponse.event_status
        { inner := { status := 200, body := [] },
          raw_byte_size := 3, events_byte_size := { byte_size := 2 } }
        = EventStatus.Delivered
    ∧ AzureMonitorLogsDceResponse.bytes_sent
        { inner := { status := 200, body := [] },
          raw_byte_size := 3, events_byte_size := { byte_size := 2 } }
        = some 3 :=
  call_response_is_delivered
    { uri := "https://h/u",
      creds := { inner := { credential := TokenCredential.defaultAzure,
                            token := { secret := "T2" } } } }
    (fun _ => Except.ok { status := 200, body := [] })
    { body := [9], finalizers := { finalizer_count := 1 },
      metadata := { request_encoded_size := 3,
                    events_estimated_json_encoded_byte_size := { byte_size := 2 } } }
    { inner := { status := 200, body := [] },
      raw_byte_size := 3, events_byte_size := { byte_size := 2 } }
    rfl

/-- `AzureMonitorLogsDceConfig` (sink.rs), restricted to the fields this
slice computes with; the remaining fields (encoding, batch, request, tls,
acknowledgements) belong to the external pipeline framework. -/
structure AzureMonitorLogsDceConfig where
  immutable_id : String
  stream_name : String
  endpoint_host : String
  client_credentials : Option AzureClientSecretCredentials
deriving DecidableEq, Repr

/-- `AzureMonitorLogsDceConfig::create_endpoint` (sink.rs): the single
`format!` call. -/
def AzureMonitorLogsDceConfig.create_endpoint (c : AzureMonitorLogsDceConfig) :
    String :=
  "https://" ++ c.endpoint_host ++ "/dataCollectionRules/" ++ c.immutable_id
    ++ "/streams/" ++ c.stream_name ++ "?api-version=2021-11-01-preview"

/-- The sink-and-healthcheck pair returned by a successful
`AzureMonitorLogsDceConfig::build` (sink.rs).  `refresher_spawned` records
that `spawn_regenerate_token` was called; `healthcheck` is the
`future::ok(())` the build returns. -/
structure BuiltSink where
  healthcheck : Except String Unit
  refresher_spawned : Bool
  service : AzureMonitorLogsDceService
deriving Repr

/-- `AzureMonitorLogsDceConfig::build` (sink.rs): await
`AzureAuthenticator::new` (propagating its error with `?`), then create
the constant-`Ok` healthcheck, spawn the token refresher, and build the
sink whose service holds `create_endpoint` and the authenticator.  The
TLS settings, HTTP client and batcher construction are framework
collaborators and are modelled as infallible. -/
def AzureMonitorLogsDceConfig.build (cfg : AzureMonitorLogsDceConfig)
    (fetchResult : Except AuthError AccessToken) : Except AuthError BuiltSink :=
  match AzureAuthenticator.new cfg.client_credentials fetchResult with
  | Except.error e => Except.error e
  | Except.ok creds =>
      Except.ok
        { healthcheck := Except.ok (),
          refresher_spawned := true,
          service := { uri := cfg.create_endpoint, creds := creds } }

/-- Claim C5: if the very first token fetch fails,
`AzureAuthenticator::new` returns that error, sink construction fails with
the same error (no partial-service state), and the background refresher is
never started (it is only spawned on the success path of `build`). -/
theorem startup_fetch_failure_fail_fast (cfg : AzureMonitorLogsDceConfig)
    (e : AuthError) :
    AzureAuthenticator.new cfg.client_credentials (Except.error e) = Except.error e
    ∧ cfg.build (Except.error e) = Except.error e := by
  constructor
  · rfl
  · rfl

/-- Claim C6: the delivery endpoint URI is exactly
`https:// ++ host ++ /dataCollectionRules/ ++ id ++ /streams/ ++ stream ++
?api-version=2021-11-01-preview`, and in particular the concrete
instance from the spec evaluates to the expected string. -/
theorem endpoint_uri_shape :
    (∀ cfg : AzureMonitorLogsDceConfig,
      cfg.create_endpoint
        = "https://" ++ cfg.endpoint_host ++ "/dataCollectionRules/"
            ++ cfg.immutable_id ++ "/streams/" ++ cfg.stream_name
            ++ "?api-version=2021-11-01-preview")
    ∧ AzureMonitorLogsDceConfig.create_endpoint
        { immutable_id := "dcr-1", stream_name := "Custom-A",
          endpoint_host := "x.ingest.monitor.azure.com",
          client_credentials := none }
        = "https://x.ingest.monitor.azure.com/dataCollectionRules/dcr-1/streams/Custom-A?api-version=2021-11-01-preview" :=
  ⟨fun _ => rfl, rfl⟩

/-- Claim C10: the healthcheck returned by sink construction is the
constant `Ok(())`: whenever `build` succeeds, the returned healthcheck is
`Except.ok ()` regardless of configuration or credentials. -/
theorem healthcheck_always_ok (cfg : AzureMonitorLogsDceConfig)
    (fetchResult : Except AuthError AccessToken) (b : BuiltSink)
    (h : cfg.build fetchResult = Except.ok b) :
    b.healthcheck = Except.ok () := by
  simp only [AzureMonitorLogsDceConfig.build] at h
  cases hn : AzureAuthenticator.new cfg.client_credentials fetchResult with
  | ok creds =>
      rw [hn] at h
      cases h
      rfl
  | error e =>
      rw [hn] at h
      simp at h

/-- Witness for C10: a concrete successful build returns the `Ok`
healthcheck. -/
theorem healthcheck_always_ok_witness :
    BuiltSink.healthcheck
      { healthcheck := Except.ok (),
        refresher_spawned := true,
        service :=
          { uri :=
              AzureMonitorLogsDceConfig.create_endpoint
                { immutable_id := "d", stream_name := "s", endpoint_host := "h",
                  client_credentials := none },
            creds := { inner := { credential := TokenCredential.defaultAzure,
                                  token := { secret := "T3" } } } } }
      = Except.ok () :=
  healthcheck_always_ok
    { immutable_id := "d", stream_name := "s", endpoint_host := "h",
      client_credentials := none }
    (Except.ok { secret := "T3" })
    { healthcheck := Except.ok (),
      refresher_spawned := true,
      service :=
        { uri :=
            AzureMonitorLogsDceConfig.create_endpoint
              { immutable_id := "d", stream_name := "s", endpoint_host := "h",
                client_credentials := none },
          creds := { inner := { credential := TokenCredential.defaultAzure,
                                token := { secret := "T3" } } } } }
    rfl
